import Mathlib

/-!
Verification of the DCX issuer reconciliation and pipeline core
(src/packages/issuer/src/dcx-issuer.ts), via a shallow embedding:
pure functions of the source become Lean functions, DWN/network calls
become explicit environment records, and thrown errors become an
explicit error type mirroring the TypeScript error classes.
-/

namespace Dcx

/-- An issuer entry (from the Issuer type of the common package): carries a DID id. -/
structure Issuer where
  id : String
deriving Repr, DecidableEq

/-- Abstract presentation definition carried by a manifest; its evaluation is
delegated to the external credential library, so only its identity matters here. -/
structure PresentationDefinition where
  id : String
deriving Repr, DecidableEq

/-- One output descriptor of a manifest: an id and a name (the issued credential type). -/
structure OutputDescriptor where
  id : String
  name : String
deriving Repr, DecidableEq

/-- The issuer reference inside a manifest; its id field is rewritten to the local
agent DID before publication (createManifestRecord). -/
structure ManifestIssuer where
  id : String
deriving Repr, DecidableEq

/-- A credential manifest as used by dcx-issuer.ts: stable id, mutable issuer
reference, output descriptors, and a presentation definition. -/
structure CredentialManifest where
  id : String
  issuer : ManifestIssuer
  output_descriptors : List OutputDescriptor
  presentation_definition : PresentationDefinition
deriving Repr, DecidableEq

/-- Errors thrown by the issuer core, one constructor per TypeScript error class
that dcx-issuer.ts throws: DwnError (code, detail), DcxDwnError (message),
DcxProtocolHandlerError (message), and externalError for exceptions raised by
external collaborators (credential library, fetch) that propagate through. -/
inductive DcxError where
  | dwnError (code : Nat) (detail : String)
  | dcxDwnError (msg : String)
  | dcxProtocolHandlerError (msg : String)
  | externalError (msg : String)
deriving Repr, DecidableEq

/-- Modelled from the spec: DwnUtils.isFailure from the common package (not under
src); every Node call returns a status object with a success or failure code and
the core treats any non-success (non-2xx) code as failure. -/
def DwnUtils.isFailure (code : Nat) : Bool :=
  code < 200 || 300 ≤ code

/-- A DWN response status: code plus detail text. -/
structure DwnStatus where
  code : Nat
  detail : String
deriving Repr, DecidableEq

/-- Embedding of filterRecords (dcx-issuer.ts lines 334-339): the configured
manifests (this.dcxOptions.manifests) are filtered by the truthiness of
manifestRecords.find(manifestRecord => manifest.id !== manifestRecord.id);
a found object is truthy, so the filter keeps a configured manifest exactly
when find? returns some. -/
def filterRecords (manifests : List CredentialManifest)
    (manifestRecords : List CredentialManifest) : List CredentialManifest :=
  manifests.filter (fun manifest =>
    (manifestRecords.find? (fun manifestRecord => manifest.id != manifestRecord.id)).isSome)

/-- Follows the spec words for computeMissing: a configured manifest is missing
iff no existing manifest shares its id; order of the configured list preserved,
duplicates not deduplicated. Stated as a second definition to compare with the
source embedding filterRecords. -/
def computeMissingSpec (configured : List CredentialManifest)
    (existing : List CredentialManifest) : List CredentialManifest :=
  configured.filter (fun m => existing.all (fun e => !(e.id == m.id)))

/-- C1: filterRecords does not compute the missing set claimed by the spec. At the
concrete input of one configured manifest (id "A") and no existing records, the
claim demands that the manifest be returned as missing, but filterRecords returns
the empty list (find over an empty list is undefined, hence falsy). At one
configured manifest (id "A") and existing records with ids "B" and "A", the claim
demands the empty list (a record shares id "A"), but filterRecords keeps the
manifest because the record with id "B" makes the find truthy. The spec-following
computeMissingSpec gives the claimed answers at both inputs. -/
theorem filterRecords_inverted :
    filterRecords
        [{ id := "A", issuer := { id := "I" }, output_descriptors := [],
           presentation_definition := { id := "P" } }] [] = []
    ∧ computeMissingSpec
        [{ id := "A", issuer := { id := "I" }, output_descriptors := [],
           presentation_definition := { id := "P" } }] []
      = [{ id := "A", issuer := { id := "I" }, output_descriptors := [],
           presentation_definition := { id := "P" } }]
    ∧ filterRecords
        [{ id := "A", issuer := { id := "I" }, output_descriptors := [],
           presentation_definition := { id := "P" } }]
        [{ id := "B", issuer := { id := "I" }, output_descriptors := [],
           presentation_definition := { id := "P" } },
         { id := "A", issuer := { id := "I" }, output_descriptors := [],
           presentation_definition := { id := "P" } }]
      = [{ id := "A", issuer := { id := "I" }, output_descriptors := [],
           presentation_definition := { id := "P" } }]
    ∧ computeMissingSpec
        [{ id := "A", issuer := { id := "I" }, output_descriptors := [],
           presentation_definition := { id := "P" } }]
        [{ id := "B", issuer := { id := "I" }, output_descriptors := [],
           presentation_definition := { id := "P" } },
         { id := "A", issuer := { id := "I" }, output_descriptors := [],
           presentation_definition := { id := "P" } }]
      = [] := by
  refine ⟨rfl, rfl, rfl, rfl⟩

/-- The canonical credential-issuer protocol definition (the static issuer object
imported from ./index.js, not under src; only its identity matters to setup). -/
structure ProtocolDefinition where
  protocol : String
deriving Repr, DecidableEq

/-- Modelled from the spec: the single canonical protocol definition per
deployment, submitted by configureProtocols and matched by queryProtocols. -/
def issuerProtocolDef : ProtocolDefinition :=
  { protocol := "credential-issuer" }

/-- Node (DWN) state visible to setup: the protocol definitions matching the
issuer protocol filter, and the stored manifest records (their JSON payloads,
which readRecords parses back into manifests). -/
structure NodeState where
  protocols : List ProtocolDefinition
  manifestRecords : List CredentialManifest
deriving Repr, DecidableEq

/-- The issuer.id rewrite that createManifestRecord applies before creating the
record (dcx-issuer.ts line 347). -/
def patchIssuer (agentDid : String) (m : CredentialManifest) : CredentialManifest :=
  { m with issuer := { m.issuer with id := agentDid } }

/-- Embedding of setup (dcx-issuer.ts lines 464-505) on a Node whose calls all
succeed: query protocols, configure iff none found (appending the canonical
definition), query and read manifest records, then create every configured
manifest if none exist, else create the filterRecords subset; each created
record stores the issuer-patched manifest as its payload. -/
def setupModel (agentDid : String) (configured : List CredentialManifest)
    (s : NodeState) : NodeState :=
  let s1 := if s.protocols.length = 0
    then { s with protocols := s.protocols ++ [issuerProtocolDef] }
    else s
  let manifests := s1.manifestRecords
  if manifests.length = 0 then
    { s1 with manifestRecords :=
        s1.manifestRecords ++ configured.map (patchIssuer agentDid) }
  else
    let missing := filterRecords configured manifests
    { s1 with manifestRecords :=
        s1.manifestRecords ++ missing.map (patchIssuer agentDid) }

/-- C2: a second setup run is not idempotent on manifest records. With the two
configured manifests of ids "A" and "B" and an initially empty Node, the first
run stores one record per id, but the second run's filterRecords step returns
both manifests again (each finds a stored record with a different id), so the
Node ends with four manifest records, two per configured id, instead of the
claimed one per id; the protocol definition alone ends unduplicated. -/
theorem setup_second_run_duplicates :
    (setupModel ("did:ex:agent")
        [{ id := "A", issuer := { id := "I" }, output_descriptors := [],
           presentation_definition := { id := "P" } },
         { id := "B", issuer := { id := "I" }, output_descriptors := [],
           presentation_definition := { id := "P" } }]
        (setupModel ("did:ex:agent")
          [{ id := "A", issuer := { id := "I" }, output_descriptors := [],
             presentation_definition := { id := "P" } },
           { id := "B", issuer := { id := "I" }, output_descriptors := [],
             presentation_definition := { id := "P" } }]
          { protocols := [], manifestRecords := [] })).manifestRecords.map
        (fun r => r.id)
      = ["A", "B", "A", "B"]
    ∧ (setupModel ("did:ex:agent")
        [{ id := "A", issuer := { id := "I" }, output_descriptors := [],
           presentation_definition := { id := "P" } },
         { id := "B", issuer := { id := "I" }, output_descriptors := [],
           presentation_definition := { id := "P" } }]
        (setupModel ("did:ex:agent")
          [{ id := "A", issuer := { id := "I" }, output_descriptors := [],
             presentation_definition := { id := "P" } },
           { id := "B", issuer := { id := "I" }, output_descriptors := [],
             presentation_definition := { id := "P" } }]
          { protocols := [], manifestRecords := [] })).protocols.length = 1 := by
  refine ⟨rfl, rfl⟩

/-- A credential token as verifyCredentials sees it after VerifiableCredential.parseJwt:
its parsed subject, its parsed issuer (vc.vcDataModel.issuer), and whether the
cryptographic verification call returns a non-empty result (the code drops the
token when verify returns a falsy or empty value). Tokens are modelled by their
deterministic parse. -/
structure ParsedVc where
  subject : String
  issuer : String
  verifies : Bool
deriving Repr, DecidableEq

/-- Environment of verifyCredentials: the external presentation-exchange check
(PresentationExchange.satisfiesPresentationDefinition, which raises when
unsatisfied; modelled as a boolean predicate on the token list and definition),
the per-instance configured issuers (this.dcxOptions.issuers), and the static
trusted issuers (dcxIssuerConfig.DCX_INPUT_ISSUERS, from ./index.js). -/
structure VerifyEnv where
  satisfies : List ParsedVc → PresentationDefinition → Bool
  optionIssuers : List Issuer
  staticIssuers : List Issuer

/-- The issuer DID list built inside the loop (dcx-issuer.ts line 111):
spread of the per-instance issuers and the static issuers, mapped to ids.
The code wraps it in a Set, whose membership test agrees with list membership. -/
def issuerIds (env : VerifyEnv) : List String :=
  (env.optionIssuers ++ env.staticIssuers).map Issuer.id

/-- The conjunction of the three per-token checks of the loop, in source order:
subject equals subjectDid, issuer in the issuer-DID set, verification non-empty. -/
def vcPasses (env : VerifyEnv) (subjectDid : String) (vc : ParsedVc) : Bool :=
  vc.subject == subjectDid && (issuerIds env).contains vc.issuer && vc.verifies

/-- Embedding of the for-loop of verifyCredentials (dcx-issuer.ts lines 100-124):
each token is parsed, then skipped (continue) when its subject differs from
subjectDid, when its issuer is outside the issuer-DID set, or when verification
yields an empty result; otherwise it is pushed onto the output. -/
def verifyLoop (env : VerifyEnv) (subjectDid : String) : List ParsedVc → List ParsedVc
  | [] => []
  | vc :: rest =>
    if vc.subject != subjectDid then verifyLoop env subjectDid rest
    else if !((issuerIds env).contains vc.issuer) then verifyLoop env subjectDid rest
    else if !vc.verifies then verifyLoop env subjectDid rest
    else vc :: verifyLoop env subjectDid rest

/-- The raised presentation-exchange failure, modelled as a fixed message. -/
def pexUnsatisfiedMsg : String :=
  "Presentation definition not satisfied"

/-- Embedding of verifyCredentials (dcx-issuer.ts lines 88-126): the
presentation-definition satisfaction check runs first over the whole token list
and raises on failure; only then does the per-token loop run. -/
def verifyCredentials (env : VerifyEnv) (vcJwts : List ParsedVc)
    (manifest : CredentialManifest) (subjectDid : String) :
    Except DcxError (List ParsedVc) :=
  if env.satisfies vcJwts manifest.presentation_definition then
    Except.ok (verifyLoop env subjectDid vcJwts)
  else
    Except.error (DcxError.externalError pexUnsatisfiedMsg)

theorem verifyLoop_eq_filter (env : VerifyEnv) (subjectDid : String)
    (l : List ParsedVc) :
    verifyLoop env subjectDid l = l.filter (vcPasses env subjectDid) := by
  induction l with
  | nil => rfl
  | cons vc rest ih =>
    cases h1 : vc.subject == subjectDid <;>
    cases h2 : (issuerIds env).contains vc.issuer <;>
    cases h3 : vc.verifies <;>
    simp [verifyLoop, List.filter_cons, vcPasses, bne, h1, h2, h3, ih]

theorem vcPasses_of_subject_ne (env : VerifyEnv) (subjectDid : String)
    (vc : ParsedVc) (h : vc.subject ≠ subjectDid) :
    vcPasses env subjectDid vc = false := by
  have hb : (vc.subject == subjectDid) = false := beq_eq_false_iff_ne.mpr h
  simp [vcPasses, hb]

theorem vcPasses_of_issuer_out (env : VerifyEnv) (subjectDid : String)
    (vc : ParsedVc) (h : (issuerIds env).contains vc.issuer = false) :
    vcPasses env subjectDid vc = false := by
  unfold vcPasses
  rw [h]
  cases vc.subject == subjectDid <;> cases vc.verifies <;> rfl

/-- C3: a token whose parsed subject differs from the submission author is
dropped, not erred: whenever verifyCredentials returns a list, every element's
subject equals the given subjectDid; and replacing one token that passes all
three checks with one whose subject mismatches (the rest arbitrary) lowers the
verified count by exactly one. -/
theorem verifyCredentials_subject_filtering (env : VerifyEnv) (subjectDid : String) :
    (∀ (vcJwts : List ParsedVc) (manifest : CredentialManifest)
        (r : List ParsedVc),
        verifyCredentials env vcJwts manifest subjectDid = Except.ok r →
        ∀ vc ∈ r, vc.subject = subjectDid) ∧
    (∀ (l1 l2 : List ParsedVc) (t t' : ParsedVc),
        vcPasses env subjectDid t = true → t'.subject ≠ subjectDid →
        (verifyLoop env subjectDid (l1 ++ t :: l2)).length
          = (verifyLoop env subjectDid (l1 ++ t' :: l2)).length + 1) := by
  constructor
  · intro vcJwts manifest r hr vc hvc
    unfold verifyCredentials at hr
    split at hr
    · injection hr with hr
      subst hr
      rw [verifyLoop_eq_filter] at hvc
      have hp := List.of_mem_filter hvc
      by_contra hne
      rw [vcPasses_of_subject_ne env subjectDid vc hne] at hp
      cases hp
    · cases hr
  · intro l1 l2 t t' ht ht'
    have hf := vcPasses_of_subject_ne env subjectDid t' ht'
    rw [verifyLoop_eq_filter, verifyLoop_eq_filter]
    simp [List.filter_append, List.filter_cons, ht, hf]
    omega

/-- C3 witness: with one trusted issuer "I" and author "did:x:B", the singleton
list holding a passing token of subject "did:x:B" verifies to one credential
more than the same list with the subject replaced by "did:x:A". -/
theorem verifyCredentials_subject_filtering_witness :
    (verifyLoop
        { satisfies := fun _ _ => true,
          optionIssuers := [{ id := "I" }], staticIssuers := [] }
        ("did:x:B")
        ([] ++ { subject := "did:x:B", issuer := "I", verifies := true } :: [])).length
      = (verifyLoop
          { satisfies := fun _ _ => true,
            optionIssuers := [{ id := "I" }], staticIssuers := [] }
          ("did:x:B")
          ([] ++ { subject := "did:x:A", issuer := "I", verifies := true } :: [])).length
        + 1 :=
  (verifyCredentials_subject_filtering
      { satisfies := fun _ _ => true,
        optionIssuers := [{ id := "I" }], staticIssuers := [] }
      ("did:x:B")).2 [] []
    { subject := "did:x:B", issuer := "I", verifies := true }
    { subject := "did:x:A", issuer := "I", verifies := true }
    (by decide) (by decide)

/-- C4: a token whose parsed issuer lies in neither the configured issuer list
nor the static trusted-issuer list is dropped independently of its cryptographic
verification outcome (the loop skips before the verify call, so the result is
the same for both values of the verification flag), and the returned list is the
input list filtered in order (output order equals input order minus drops). -/
theorem verifyCredentials_issuer_allowlist (env : VerifyEnv) (subjectDid : String) :
    (∀ (vcJwts : List ParsedVc) (manifest : CredentialManifest),
        env.satisfies vcJwts manifest.presentation_definition = true →
        verifyCredentials env vcJwts manifest subjectDid
          = Except.ok (vcJwts.filter (vcPasses env subjectDid))) ∧
    (∀ (l1 l2 : List ParsedVc) (vc : ParsedVc) (b : Bool),
        (issuerIds env).contains vc.issuer = false →
        verifyLoop env subjectDid (l1 ++ { vc with verifies := b } :: l2)
          = verifyLoop env subjectDid (l1 ++ l2)) := by
  constructor
  · intro vcJwts manifest hsat
    unfold verifyCredentials
    rw [hsat, if_pos rfl, verifyLoop_eq_filter]
  · intro l1 l2 vc b h
    have hf : vcPasses env subjectDid { vc with verifies := b } = false :=
      vcPasses_of_issuer_out env subjectDid { vc with verifies := b } h
    rw [verifyLoop_eq_filter, verifyLoop_eq_filter]
    simp [List.filter_append, List.filter_cons, hf]

/-- C4 witness: with the issuer allowlists covering only "I", a token from
issuer "J" with matching subject is dropped whether or not its signature would
verify, and the verified list is the in-order filter of the input. -/
theorem verifyCredentials_issuer_allowlist_witness :
    verifyCredentials
        { satisfies := fun _ _ => true,
          optionIssuers := [{ id := "I" }], staticIssuers := [] }
        [{ subject := "did:x:B", issuer := "J", verifies := true }]
        { id := "M", issuer := { id := "I" }, output_descriptors := [],
          presentation_definition := { id := "P" } }
        ("did:x:B")
      = Except.ok
          ([{ subject := "did:x:B", issuer := "J", verifies := true }].filter
            (vcPasses
              { satisfies := fun _ _ => true,
                optionIssuers := [{ id := "I" }], staticIssuers := [] }
              ("did:x:B")))
    ∧ verifyLoop
        { satisfies := fun _ _ => true,
          optionIssuers := [{ id := "I" }], staticIssuers := [] }
        ("did:x:B")
        ([] ++ ({ subject := "did:x:B", issuer := "J", verifies := false } :
            ParsedVc) :: [])
      = verifyLoop
          { satisfies := fun _ _ => true,
            optionIssuers := [{ id := "I" }], staticIssuers := [] }
          ("did:x:B") ([] ++ []) :=
  ⟨(verifyCredentials_issuer_allowlist
      { satisfies := fun _ _ => true,
        optionIssuers := [{ id := "I" }], staticIssuers := [] }
      ("did:x:B")).1 _ _ rfl,
   (verifyCredentials_issuer_allowlist
      { satisfies := fun _ _ => true,
        optionIssuers := [{ id := "I" }], staticIssuers := [] }
      ("did:x:B")).2 [] []
    { subject := "did:x:B", issuer := "J", verifies := true } false (by decide)⟩

/-- C5: when the presentation-definition satisfaction check over the whole token
list fails, verifyCredentials raises (returns the raised error, producing no
verified list); when it passes, and only then, the result is the per-token
filtering loop. -/
theorem verifyCredentials_pex_abort (env : VerifyEnv) (vcJwts : List ParsedVc)
    (manifest : CredentialManifest) (subjectDid : String) :
    (env.satisfies vcJwts manifest.presentation_definition = false →
      verifyCredentials env vcJwts manifest subjectDid
        = Except.error (DcxError.externalError pexUnsatisfiedMsg)) ∧
    (env.satisfies vcJwts manifest.presentation_definition = true →
      verifyCredentials env vcJwts manifest subjectDid
        = Except.ok (verifyLoop env subjectDid vcJwts)) := by
  constructor <;> intro h <;> simp [verifyCredentials, h]

/-- C5 witness: an environment whose satisfaction check rejects makes
verifyCredentials raise the presentation-exchange error on a token list that
per-token filtering would otherwise keep. -/
theorem verifyCredentials_pex_abort_witness :
    verifyCredentials
        { satisfies := fun _ _ => false,
          optionIssuers := [{ id := "I" }], staticIssuers := [] }
        [{ subject := "did:x:B", issuer := "I", verifies := true }]
        { id := "M", issuer := { id := "I" }, output_descriptors := [],
          presentation_definition := { id := "P" } }
        ("did:x:B")
      = Except.error (DcxError.externalError pexUnsatisfiedMsg) :=
  (verifyCredentials_pex_abort
      { satisfies := fun _ _ => false,
        optionIssuers := [{ id := "I" }], staticIssuers := [] }
      [{ subject := "did:x:B", issuer := "I", verifies := true }]
      { id := "M", issuer := { id := "I" }, output_descriptors := [],
        presentation_definition := { id := "P" } }
      ("did:x:B")).1 rfl

/-- A credential built by VerifiableCredential.create in issueCredential:
type from the descriptor name, subject, issuer (the local agent DID), and the
external data payload (kept abstract as a string). -/
structure CreatedVc where
  type : String
  subject : String
  issuer : String
  data : String
deriving Repr, DecidableEq

/-- The result of vc.sign with the local agent DID: the credential plus the
signing identity. -/
structure SignedVc where
  vc : CreatedVc
  signedBy : String
deriving Repr, DecidableEq

/-- One entry of the fulfillment descriptor_map returned by issueCredential. -/
structure DescriptorMapEntry where
  id : String
  format : String
  path : String
deriving Repr, DecidableEq

/-- The fulfillment object of the issuance result. -/
structure Fulfillment where
  descriptor_map : List DescriptorMapEntry
deriving Repr, DecidableEq

/-- The object returned by issueCredential. -/
structure IssueResponse where
  fulfillment : Fulfillment
  verifiableCredential : List SignedVc
deriving Repr, DecidableEq

/-- Embedding of issueCredential (dcx-issuer.ts lines 154-185): it reads
manifest.output_descriptors[0] (none models the TypeError the code would raise
on an empty descriptor list), creates a credential of that descriptor's name
with the given subject and the local agent DID as issuer, signs it with the
agent DID, and wraps it in a single fulfillment descriptor with format jwt_vc
and the fixed JWT path. -/
def issueCredential (agentDid : String) (data : String) (subjectDid : String)
    (manifest : CredentialManifest) : Option IssueResponse :=
  match manifest.output_descriptors with
  | [] => none
  | manifestOutputDescriptor :: _ =>
    let vc : CreatedVc :=
      { type := manifestOutputDescriptor.name
        subject := subjectDid
        issuer := agentDid
        data := data }
    let signed : SignedVc := { vc := vc, signedBy := agentDid }
    some
      { fulfillment :=
          { descriptor_map :=
              [{ id := manifestOutputDescriptor.id
                 format := "jwt_vc"
                 path := "$.verifiableCredential[0]" }] }
        verifiableCredential := [signed] }

/-- C6: for any manifest whose descriptor list starts with d (any further
descriptors ignored), issueCredential returns a result whose single fulfillment
descriptor carries d's id, format jwt_vc and the fixed path, and whose single
signed credential has type d.name, the given subject, and the agent DID as
issuer and signer. -/
theorem issueCredential_first_descriptor (agentDid data subjectDid : String)
    (manifest : CredentialManifest) (d : OutputDescriptor)
    (rest : List OutputDescriptor)
    (h : manifest.output_descriptors = d :: rest) :
    issueCredential agentDid data subjectDid manifest
      = some
          { fulfillment :=
              { descriptor_map :=
                  [{ id := d.id
                     format := "jwt_vc"
                     path := "$.verifiableCredential[0]" }] }
            verifiableCredential :=
              [{ vc :=
                  { type := d.name
                    subject := subjectDid
                    issuer := agentDid
                    data := data }
                 signedBy := agentDid }] } := by
  unfold issueCredential
  rw [h]

/-- C6 witness: a manifest with two output descriptors is bound to descriptor
index 0 only - the fulfillment references "d0" even though "d1" exists. -/
theorem issueCredential_first_descriptor_witness :
    issueCredential ("did:ex:agent") ("payload") ("did:ex:subject")
        { id := "M", issuer := { id := "I" },
          output_descriptors :=
            [{ id := "d0", name := "TypeZero" }, { id := "d1", name := "TypeOne" }],
          presentation_definition := { id := "P" } }
      = some
          { fulfillment :=
              { descriptor_map :=
                  [{ id := "d0"
                     format := "jwt_vc"
                     path := "$.verifiableCredential[0]" }] }
            verifiableCredential :=
              [{ vc :=
                  { type := "TypeZero"
                    subject := "did:ex:subject"
                    issuer := "did:ex:agent"
                    data := "payload" }
                 signedBy := "did:ex:agent" }] } :=
  issueCredential_first_descriptor ("did:ex:agent") ("payload") ("did:ex:subject")
    { id := "M", issuer := { id := "I" },
      output_descriptors :=
        [{ id := "d0", name := "TypeZero" }, { id := "d1", name := "TypeOne" }],
      presentation_definition := { id := "P" } }
    { id := "d0", name := "TypeZero" } [{ id := "d1", name := "TypeOne" }] rfl

/-- The DWN responses configureProtocols observes: the configure call's status
and optional protocol handle, and the status of protocol.send on the agent DID
(only reached when a handle exists). -/
structure ConfigureEnv where
  configure : DwnStatus
  protocolHandle : Option ProtocolDefinition
  send : DwnStatus
deriving Repr, DecidableEq

/-- Embedding of configureProtocols (dcx-issuer.ts lines 249-274): when the
configure status is a failure OR no protocol handle is returned, it throws
DwnError(configure.code, configure.detail); otherwise it sends, throwing
DwnError(send.code, send.detail) on send failure, else returning the send
status and the handle. -/
def configureProtocols (env : ConfigureEnv) :
    Except DcxError (DwnStatus × ProtocolDefinition) :=
  match env.protocolHandle, DwnUtils.isFailure env.configure.code with
  | none, _ =>
    Except.error (DcxError.dwnError env.configure.code env.configure.detail)
  | some _, true =>
    Except.error (DcxError.dwnError env.configure.code env.configure.detail)
  | some protocol, false =>
    if DwnUtils.isFailure env.send.code then
      Except.error (DcxError.dwnError env.send.code env.send.detail)
    else
      Except.ok (env.send, protocol)

/-- C7 counterexample: when the configure call reports success (code 202) but
returns no protocol handle, configureProtocols throws the very same kind of
error as a configure failure - a DwnError built from the configure status (here
even carrying the success code 202) - not a distinct protocol-missing error;
a failing configure (code 500) yields a DwnError of the same constructor. The
distinct DcxDwnError constructor (used by createManifestRecord for a missing
record) is never produced here. -/
theorem configureProtocols_no_distinct_missing_error :
    configureProtocols
        { configure := { code := 202, detail := "Accepted" },
          protocolHandle := none,
          send := { code := 202, detail := "Accepted" } }
      = Except.error (DcxError.dwnError 202 "Accepted")
    ∧ configureProtocols
        { configure := { code := 500, detail := "fail" },
          protocolHandle := some issuerProtocolDef,
          send := { code := 202, detail := "Accepted" } }
      = Except.error (DcxError.dwnError 500 "fail") := by
  refine ⟨rfl, rfl⟩

/-- C7 amended: configureProtocols throws the DwnError built from the configure
status both when configure reports failure and when it reports success without
returning a protocol handle (one error kind for both, no distinct
protocol-missing error), throws the DwnError built from the send status when the
publish fails, and succeeds otherwise. -/
theorem configureProtocols_error_cases (env : ConfigureEnv) :
    ((DwnUtils.isFailure env.configure.code = true ∨ env.protocolHandle = none) →
      configureProtocols env
        = Except.error (DcxError.dwnError env.configure.code env.configure.detail)) ∧
    (∀ p, env.protocolHandle = some p →
      DwnUtils.isFailure env.configure.code = false →
      DwnUtils.isFailure env.send.code = true →
      configureProtocols env
        = Except.error (DcxError.dwnError env.send.code env.send.detail)) ∧
    (∀ p, env.protocolHandle = some p →
      DwnUtils.isFailure env.configure.code = false →
      DwnUtils.isFailure env.send.code = false →
      configureProtocols env = Except.ok (env.send, p)) := by
  refine ⟨?_, ?_, ?_⟩
  · intro h
    unfold configureProtocols
    rcases h with h | h
    · cases hp : env.protocolHandle <;> rw [h]
    · rw [h]
  · intro p hp hc hs
    unfold configureProtocols
    rw [hp, hc]
    simp [hs]
  · intro p hp hc hs
    unfold configureProtocols
    rw [hp, hc]
    simp [hs]

/-- C7 amended witness: concrete instances of the three cases - missing handle
under a success status, failing publish, and full success. -/
theorem configureProtocols_error_cases_witness :
    configureProtocols
        { configure := { code := 202, detail := "ok" },
          protocolHandle := none,
          send := { code := 202, detail := "ok" } }
      = Except.error (DcxError.dwnError 202 "ok")
    ∧ configureProtocols
        { configure := { code := 202, detail := "ok" },
          protocolHandle := some issuerProtocolDef,
          send := { code := 500, detail := "boom" } }
      = Except.error (DcxError.dwnError 500 "boom")
    ∧ configureProtocols
        { configure := { code := 202, detail := "ok" },
          protocolHandle := some issuerProtocolDef,
          send := { code := 202, detail := "ok" } }
      = Except.ok ({ code := 202, detail := "ok" }, issuerProtocolDef) :=
  ⟨(configureProtocols_error_cases
      { configure := { code := 202, detail := "ok" },
        protocolHandle := none,
        send := { code := 202, detail := "ok" } }).1 (Or.inr rfl),
   (configureProtocols_error_cases
      { configure := { code := 202, detail := "ok" },
        protocolHandle := some issuerProtocolDef,
        send := { code := 500, detail := "boom" } }).2.1
      issuerProtocolDef rfl (by decide) (by decide),
   (configureProtocols_error_cases
      { configure := { code := 202, detail := "ok" },
        protocolHandle := some issuerProtocolDef,
        send := { code := 202, detail := "ok" } }).2.2
      issuerProtocolDef rfl (by decide) (by decide)⟩

/-- A DWN record handle as returned by records.create: an id and the stored
manifest payload. -/
structure DwnRecord where
  id : String
  data : CredentialManifest
deriving Repr, DecidableEq

/-- The DWN responses one records.create pass observes for a given (patched)
manifest: the create status, the optional record handle, and the status of
record.send (only reached when a handle exists and create succeeded). -/
structure CreateOutcome where
  create : DwnStatus
  record : Option DwnRecord
  send : DwnStatus
deriving Repr, DecidableEq

/-- Embedding of createManifestRecord (dcx-issuer.ts lines 346-382): the
manifest's issuer.id is rewritten to the agent DID, the record is created with
the patched manifest as data; a failing create status throws
DwnError(create.code, create.detail); a success status without a record handle
throws the distinct DcxDwnError naming the manifest id; a failing send throws
DwnError(send.code, send.detail); otherwise the send status and record are
returned. -/
def createManifestRecord (env : CredentialManifest → CreateOutcome)
    (agentDid : String) (manifestRecord : CredentialManifest) :
    Except DcxError (DwnStatus × DwnRecord) :=
  let patched := patchIssuer agentDid manifestRecord
  let o := env patched
  if DwnUtils.isFailure o.create.code then
    Except.error (DcxError.dwnError o.create.code o.create.detail)
  else
    match o.record with
    | none =>
      Except.error (DcxError.dcxDwnError
        ("Failed to create missing dwn manifest record: " ++ patched.id))
    | some record =>
      if DwnUtils.isFailure o.send.code then
        Except.error (DcxError.dwnError o.send.code o.send.detail)
      else
        Except.ok (o.send, record)

/-- Promise.all over per-item fallible computations: every item is evaluated
and any rejection rejects the whole batch (the model reports the
earliest-index error); on success the result array keeps index correspondence
with the input array. -/
def promiseAll {α β : Type} (f : α → Except DcxError β) :
    List α → Except DcxError (List β)
  | [] => Except.ok []
  | a :: rest =>
    match f a, promiseAll f rest with
    | Except.error e, _ => Except.error e
    | Except.ok _, Except.error e => Except.error e
    | Except.ok b, Except.ok bs => Except.ok (b :: bs)

/-- Embedding of createRecords (dcx-issuer.ts lines 389-397): Promise.all over
createManifestRecord applied to each manifest, each result projected through
the optional-chaining access of .record, then the undefined entries filtered
out of the result array. -/
def createRecords (env : CredentialManifest → CreateOutcome) (agentDid : String)
    (manifestRecords : List CredentialManifest) : Except DcxError (List DwnRecord) :=
  match promiseAll
      (fun manifestRecord =>
        Except.map (fun r => some r.2)
          (createManifestRecord env agentDid manifestRecord))
      manifestRecords with
  | Except.error e => Except.error e
  | Except.ok records => Except.ok (records.filterMap id)

/-- All three DWN responses of one manifest-record creation succeed. -/
def outcomeOk (o : CreateOutcome) : Prop :=
  DwnUtils.isFailure o.create.code = false ∧ o.record ≠ none
    ∧ DwnUtils.isFailure o.send.code = false

instance (o : CreateOutcome) : Decidable (outcomeOk o) := by
  unfold outcomeOk
  infer_instance

theorem createManifestRecord_ok_of (env : CredentialManifest → CreateOutcome)
    (agentDid : String) (m : CredentialManifest)
    (h : outcomeOk (env (patchIssuer agentDid m))) :
    ∃ r : DwnStatus × DwnRecord,
      createManifestRecord env agentDid m = Except.ok r := by
  obtain ⟨h1, h2, h3⟩ := h
  obtain ⟨rec, hrec⟩ := Option.ne_none_iff_exists'.mp h2
  refine ⟨((env (patchIssuer agentDid m)).send, rec), ?_⟩
  unfold createManifestRecord
  simp [h1, h3, hrec]

/-- C8 counterexample: two manifests of ids "A" and "B" on a Node whose create
call returns a success status but no record handle for "B": createRecords does
not drop "B" and return the record for "A" - createManifestRecord throws the
DcxDwnError naming "B", Promise.all rejects, and the whole pass aborts with
that error instead of any result list. -/
theorem createRecords_not_best_effort :
    createRecords
        (fun m =>
          if m.id == "B" then
            { create := { code := 202, detail := "ok" },
              record := none,
              send := { code := 202, detail := "ok" } }
          else
            { create := { code := 202, detail := "ok" },
              record := some { id := ("r-" ++ m.id),
                               data := m },
              send := { code := 202, detail := "ok" } })
        ("did:ex:agent")
        [{ id := "A", issuer := { id := "I" }, output_descriptors := [],
           presentation_definition := { id := "P" } },
         { id := "B", issuer := { id := "I" }, output_descriptors := [],
           presentation_definition := { id := "P" } }]
      = Except.error (DcxError.dcxDwnError
          ("Failed to create missing dwn manifest record: B")) := by
  rfl

/-- C8 amended: createRecords is all-or-nothing like readRecords. When every
manifest's creation succeeds, it returns one record per input manifest (the
undefined-filter drops nothing); when createManifestRecord fails on any
manifest (in particular when a creation yields no record handle), the whole
pass aborts with that error and no partial result list is produced. -/
theorem createRecords_all_or_nothing (env : CredentialManifest → CreateOutcome)
    (agentDid : String) :
    (∀ ms : List CredentialManifest,
      (∀ m ∈ ms, outcomeOk (env (patchIssuer agentDid m))) →
      ∃ rs : List DwnRecord,
        createRecords env agentDid ms = Except.ok rs ∧ rs.length = ms.length) ∧
    (∀ (l1 l2 : List CredentialManifest) (m : CredentialManifest) (e : DcxError),
      createManifestRecord env agentDid m = Except.error e →
      (∀ m' ∈ l1, outcomeOk (env (patchIssuer agentDid m'))) →
      createRecords env agentDid (l1 ++ m :: l2) = Except.error e) := by
  constructor
  · intro ms hms
    suffices hp : ∃ os : List (Option DwnRecord),
        promiseAll
            (fun manifestRecord =>
              Except.map (fun r => some r.2)
                (createManifestRecord env agentDid manifestRecord)) ms
          = Except.ok os ∧ (os.filterMap id).length = ms.length by
      obtain ⟨os, hos, hlen⟩ := hp
      exact ⟨os.filterMap id, by unfold createRecords; rw [hos], hlen⟩
    induction ms with
    | nil => exact ⟨[], rfl, rfl⟩
    | cons m rest ih =>
      obtain ⟨r, hr⟩ :=
        createManifestRecord_ok_of env agentDid m (hms m (List.mem_cons_self m rest))
      obtain ⟨os, hos, hlen⟩ :=
        ih (fun m' hm' => hms m' (List.mem_cons_of_mem m hm'))
      refine ⟨some r.2 :: os, ?_, ?_⟩
      · unfold promiseAll
        rw [hr, hos]
        rfl
      · simp [List.filterMap_cons, hlen]
  · intro l1 l2 m e he hl1
    suffices hp : promiseAll
        (fun manifestRecord =>
          Except.map (fun r => some r.2)
            (createManifestRecord env agentDid manifestRecord)) (l1 ++ m :: l2)
        = Except.error e by
      unfold createRecords
      rw [hp]
    induction l1 with
    | nil =>
      rw [List.nil_append]
      unfold promiseAll
      rw [he]
      rfl
    | cons m' rest ih =>
      obtain ⟨r, hr⟩ :=
        createManifestRecord_ok_of env agentDid m' (hl1 m' (List.mem_cons_self m' rest))
      have hrest := ih (fun x hx => hl1 x (List.mem_cons_of_mem m' hx))
      show promiseAll _ (m' :: (rest ++ m :: l2)) = Except.error e
      unfold promiseAll
      rw [hr, hrest]
      rfl

/-- C8 amended witness: with all creations succeeding, two manifests yield two
records; and prefixing the failing-at-"B" batch of the counterexample scenario
with the succeeding "A" still aborts the whole pass with the DcxDwnError. -/
theorem createRecords_all_or_nothing_witness :
    (∃ rs : List DwnRecord,
      createRecords
          (fun m =>
            { create := { code := 202, detail := "ok" },
              record := some { id := ("r-" ++ m.id), data := m },
              send := { code := 202, detail := "ok" } })
          ("did:ex:agent")
          [{ id := "A", issuer := { id := "I" }, output_descriptors := [],
             presentation_definition := { id := "P" } },
           { id := "B", issuer := { id := "I" }, output_descriptors := [],
             presentation_definition := { id := "P" } }]
        = Except.ok rs ∧ rs.length = 2) ∧
    createRecords
        (fun _ =>
          { create := { code := 202, detail := "ok" },
            record := none,
            send := { code := 202, detail := "ok" } })
        ("did:ex:agent")
        ([] ++ { id := "A", issuer := { id := "I" }, output_descriptors := [],
                 presentation_definition := { id := "P" } } :: [])
      = Except.error (DcxError.dcxDwnError
          ("Failed to create missing dwn manifest record: A")) :=
  ⟨(createRecords_all_or_nothing
      (fun m =>
        { create := { code := 202, detail := "ok" },
          record := some { id := ("r-" ++ m.id), data := m },
          send := { code := 202, detail := "ok" } })
      ("did:ex:agent")).1
      [{ id := "A", issuer := { id := "I" }, output_descriptors := [],
         presentation_definition := { id := "P" } },
       { id := "B", issuer := { id := "I" }, output_descriptors := [],
         presentation_definition := { id := "P" } }]
      (by decide),
   (createRecords_all_or_nothing
      (fun _ =>
        { create := { code := 202, detail := "ok" },
          record := none,
          send := { code := 202, detail := "ok" } })
      ("did:ex:agent")).2 [] []
      { id := "A", issuer := { id := "I" }, output_descriptors := [],
        presentation_definition := { id := "P" } }
      (DcxError.dcxDwnError ("Failed to create missing dwn manifest record: A"))
      (by rfl) (by decide)⟩

/-- A configured external VC data provider. -/
structure Provider where
  id : String
  endpoint : String
  method : Option String
deriving Repr, DecidableEq

/-- An HTTP response as requestCredential observes it: the status code and the
parsed JSON body. -/
structure FetchResponse where
  statusCode : Nat
  body : String
deriving Repr, DecidableEq

/-- Environment of requestCredential: the configured providers
(this.dcxOptions.providers) and the transport - fetch keyed by endpoint and
serialized body, rejecting (left) on transport failure. -/
structure RequestEnv where
  providers : List Provider
  transport : String → String → Except String FetchResponse

/-- The provider lookup predicate of requestCredential (dcx-issuer.ts line 200):
provider.id === params?.id; an omitted id compares unequal to every provider id. -/
def idMatches (requestId : Option String) (provider : Provider) : Bool :=
  match requestId with
  | some i => provider.id == i
  | none => false

/-- Embedding of requestCredential (dcx-issuer.ts lines 195-218): find the
provider whose id equals the given id (throwing DcxProtocolHandlerError when
none matches), fetch from its endpoint (a transport rejection propagates), and
return the parsed response body as data - the HTTP status code is never
inspected. -/
def requestCredential (env : RequestEnv) (body : String)
    (requestId : Option String) : Except DcxError String :=
  match env.providers.find? (idMatches requestId) with
  | none =>
    Except.error (DcxError.dcxProtocolHandlerError ("No VC data provider configured"))
  | some provider =>
    match env.transport provider.endpoint body with
    | Except.error e => Except.error (DcxError.externalError e)
    | Except.ok response => Except.ok response.body

/-- C9 counterexample: with provider "p" configured and the transport answering
status 500 with body "error-page", requestCredential returns
Except.ok "error-page" - the non-2xx response body is returned as data, where
the claim demands an external-request error. -/
theorem requestCredential_returns_non2xx_body :
    requestCredential
        { providers := [{ id := "p", endpoint := "https://e", method := none }],
          transport := fun _ _ =>
            Except.ok { statusCode := 500, body := "error-page" } }
        ("{}") (some "p")
      = Except.ok ("error-page") := by
  rfl

/-- C9 amended: requestCredential throws DcxProtocolHandlerError when the id is
omitted (no fallback to the first provider) or matches no configured provider;
a transport failure propagates as a raised error; but the HTTP status is never
checked - any response, 2xx or not, has its body returned as data. -/
theorem requestCredential_behavior (env : RequestEnv) (body : String) :
    (requestCredential env body none
      = Except.error
          (DcxError.dcxProtocolHandlerError ("No VC data provider configured"))) ∧
    (∀ i : String, env.providers.find? (idMatches (some i)) = none →
      requestCredential env body (some i)
        = Except.error
            (DcxError.dcxProtocolHandlerError ("No VC data provider configured"))) ∧
    (∀ (i : String) (p : Provider),
      env.providers.find? (idMatches (some i)) = some p →
      (∀ msg : String, env.transport p.endpoint body = Except.error msg →
        requestCredential env body (some i)
          = Except.error (DcxError.externalError msg)) ∧
      (∀ resp : FetchResponse, env.transport p.endpoint body = Except.ok resp →
        requestCredential env body (some i) = Except.ok resp.body)) := by
  refine ⟨?_, ?_, ?_⟩
  · have hnone : env.providers.find? (idMatches none) = none := by
      rw [List.find?_eq_none]
      intro p _
      simp [idMatches]
    unfold requestCredential
    rw [hnone]
  · intro i hi
    unfold requestCredential
    rw [hi]
  · intro i p hp
    constructor
    · intro msg hmsg
      simp [requestCredential, hp, hmsg]
    · intro resp hresp
      simp [requestCredential, hp, hresp]

/-- C9 amended witness: one provider "p"; an omitted id and the unmatched id
"q" both throw the provider-missing error; a transport rejection propagates;
and a 500 response's body is returned as data. -/
theorem requestCredential_behavior_witness :
    requestCredential
        { providers := [{ id := "p", endpoint := "https://e", method := none }],
          transport := fun _ _ =>
            Except.ok { statusCode := 500, body := "error-page" } }
        ("{}") none
      = Except.error
          (DcxError.dcxProtocolHandlerError ("No VC data provider configured"))
    ∧ requestCredential
        { providers := [{ id := "p", endpoint := "https://e", method := none }],
          transport := fun _ _ =>
            Except.ok { statusCode := 500, body := "error-page" } }
        ("{}") (some "q")
      = Except.error
          (DcxError.dcxProtocolHandlerError ("No VC data provider configured"))
    ∧ requestCredential
        { providers := [{ id := "p", endpoint := "https://e", method := none }],
          transport := fun _ _ => Except.error ("ECONNREFUSED") }
        ("{}") (some "p")
      = Except.error (DcxError.externalError ("ECONNREFUSED"))
    ∧ requestCredential
        { providers := [{ id := "p", endpoint := "https://e", method := none }],
          transport := fun _ _ =>
            Except.ok { statusCode := 500, body := "error-page" } }
        ("{}") (some "p")
      = Except.ok ("error-page") :=
  ⟨(requestCredential_behavior
      { providers := [{ id := "p", endpoint := "https://e", method := none }],
        transport := fun _ _ =>
          Except.ok { statusCode := 500, body := "error-page" } }
      ("{}")).1,
   (requestCredential_behavior
      { providers := [{ id := "p", endpoint := "https://e", method := none }],
        transport := fun _ _ =>
          Except.ok { statusCode := 500, body := "error-page" } }
      ("{}")).2.1 ("q") (by rfl),
   ((requestCredential_behavior
      { providers := [{ id := "p", endpoint := "https://e", method := none }],
        transport := fun _ _ => Except.error ("ECONNREFUSED") }
      ("{}")).2.2 ("p")
      { id := "p", endpoint := "https://e", method := none } (by rfl)).1
      ("ECONNREFUSED") (by rfl),
   ((requestCredential_behavior
      { providers := [{ id := "p", endpoint := "https://e", method := none }],
        transport := fun _ _ =>
          Except.ok { statusCode := 500, body := "error-page" } }
      ("{}")).2.2 ("p")
      { id := "p", endpoint := "https://e", method := none } (by rfl)).2
      { statusCode := 500, body := "error-page" } (by rfl)⟩

/-- A caller-supplied handler override entry: an operation id and a handler
callable (kept as a type parameter). -/
structure ServerHandler (H : Type) where
  id : String
  handler : H

/-- Embedding of findHandler (dcx-issuer.ts lines 77-79):
handlers.find(serverHandler => serverHandler.id === id)?.handler ?? staticHandler. -/
def findHandler {H : Type} (handlers : List (ServerHandler H)) (id : String)
    (staticHandler : H) : H :=
  match handlers.find? (fun serverHandler => serverHandler.id == id) with
  | some serverHandler => serverHandler.handler
  | none => staticHandler

/-- C10: with any entries before the first matching one failing the id test
(so in particular with further same-id duplicates anywhere after it),
findHandler returns the first matching entry's handler; with no matching entry
at all it returns the built-in default unchanged. -/
theorem findHandler_first_match_or_default {H : Type} (id : String)
    (staticHandler : H) :
    (∀ (l1 l2 : List (ServerHandler H)) (e : ServerHandler H),
      (∀ x ∈ l1, x.id ≠ id) → e.id = id →
      findHandler (l1 ++ e :: l2) id staticHandler = e.handler) ∧
    (∀ handlers : List (ServerHandler H),
      (∀ x ∈ handlers, x.id ≠ id) →
      findHandler handlers id staticHandler = staticHandler) := by
  constructor
  · intro l1 l2 e hl1 he
    have hfind : (l1 ++ e :: l2).find? (fun s => s.id == id) = some e := by
      induction l1 with
      | nil =>
        rw [List.nil_append]
        have : (e.id == id) = true := beq_iff_eq.mpr he
        simp [List.find?_cons, this]
      | cons x rest ih =>
        have hx : (x.id == id) = false :=
          beq_eq_false_iff_ne.mpr (hl1 x (List.mem_cons_self x rest))
        rw [List.cons_append]
        simp only [List.find?_cons, hx]
        exact ih (fun y hy => hl1 y (List.mem_cons_of_mem x hy))
    unfold findHandler
    rw [hfind]
  · intro handlers hh
    have hfind : handlers.find? (fun s => s.id == id) = none := by
      rw [List.find?_eq_none]
      intro x hx
      simp [beq_eq_false_iff_ne.mpr (hh x hx)]
    unfold findHandler
    rw [hfind]

/-- C10 witness: with two override entries sharing the id "verifyCredentials",
findHandler (over handler values in Nat) returns the first entry's handler 2,
not the later 3; and with no matching entry the default 9 is returned. -/
theorem findHandler_first_match_or_default_witness :
    findHandler
        ([{ id := "other", handler := 1 }]
          ++ { id := "verifyCredentials", handler := 2 }
            :: [{ id := "verifyCredentials", handler := 3 }])
        ("verifyCredentials") 9 = 2
    ∧ findHandler [{ id := "other", handler := 1 }] ("verifyCredentials") 9 = 9 :=
  ⟨(findHandler_first_match_or_default ("verifyCredentials") 9).1
      [{ id := "other", handler := 1 }]
      [{ id := "verifyCredentials", handler := 3 }]
      { id := "verifyCredentials", handler := 2 } (by decide) (by decide),
   (findHandler_first_match_or_default ("verifyCredentials") 9).2
      [{ id := "other", handler := 1 }] (by decide)⟩

end Dcx
